import Mathlib

/-!
Shallow embedding of `detectron2/export/caffe2_inference.py`.

The file models the two classes of the source:
* `ProtobufModel` (the spec calls it GraphRunner): owns a caffe2 net and a
  named workspace, feeds input blobs, runs the net through the external
  caffe2 engine, fetches declared output blobs, and resets them.
* `ProtobufDetectionModel` (the spec calls it DetectionAdapter): wraps a
  `ProtobufModel` with input conversion and an output converter resolved
  from the registry of meta architectures.

The external caffe2 execution engine (RunNet / RunNetOnce) is out of scope
of the repository and is modelled as an explicit function parameter: a run
maps the workspace to a new workspace together with an optional
RuntimeError message (a fault may leave the workspace partially updated).
Workspaces are association lists with most-recent-feed-first lookup, which
has the same observable behaviour (FetchBlob, blob membership) as the
overwriting store of caffe2. Executed effects are recorded in an `Event`
trace so that ordering claims (what happened before what, how many times
the net ran) are statable.
-/

namespace Caffe2Inference

/-- A tensor, modelled by its shape: the claims about this repository
constrain only dict keys and spatial dimensions, never element values,
which live inside the external engine. -/
structure Tensor where
  shape : List Nat
  deriving DecidableEq, Repr

/-- A value held by a workspace blob: a tensor, a Python string (the
post-run sentinel is fed as a string), or the empty placeholder produced
by `ws.CreateBlob`. -/
inductive BlobValue where
  | tensor (t : Tensor)
  | strVal (s : String)
  | uninit
  deriving DecidableEq, Repr

/-- A caffe2 workspace: named, mutable mapping from blob name to value,
modelled as an association list where the most recent feed shadows older
entries. -/
abbrev Workspace := List (String × BlobValue)

/-- `ws.FetchBlob(b)`: the current value of blob `b`, if present. -/
def FetchBlob : Workspace → String → Option BlobValue
  | [], _ => Option.none
  | (x, v) :: rest, b => if x = b then some v else FetchBlob rest b

/-- `ws.FeedBlob(b, v)`: store value `v` under blob name `b`. -/
def FeedBlob (ws : Workspace) (b : String) (v : BlobValue) : Workspace :=
  (b, v) :: ws

/-- `ws.Blobs()`: the names of all blobs in the workspace. -/
def Blobs (ws : Workspace) : List String :=
  ws.map Prod.fst

/-- `ws.CreateBlob(b)`: create an empty (uninitialized) blob named `b`. -/
def CreateBlob (ws : Workspace) (b : String) : Workspace :=
  FeedBlob ws b BlobValue.uninit

/-- A typed argument attached to a `NetDef` (protobuf `Argument`): the
source reads the integer `size_divisibility` and the string
`meta_architecture`. -/
inductive PbArgValue where
  | i (n : Nat)
  | s (s : String)
  deriving DecidableEq, Repr

structure PbArg where
  name : String
  value : PbArgValue
  deriving DecidableEq, Repr

/-- `caffe2_pb2.NetDef`: a serialized graph definition with a name,
declared external inputs and outputs, and named arguments. Operators are
opaque to this repository (they are executed by the external engine). -/
structure NetDef where
  name : String
  external_input : List String
  external_output : List String
  arg : List PbArg
  deriving DecidableEq, Repr

/-- A dynamically typed Python argument, needed because the constructor
asserts `isinstance(-, caffe2_pb2.NetDef)` on its arguments. -/
inductive PyObj where
  | netdef (n : NetDef)
  | other (descr : String)
  deriving DecidableEq, Repr

/-- The Python exceptions the embedded code can raise. `assertionError`
is what a failed `assert` raises (the spec names this failure
InvalidInput); `keyError` is what a failed dict lookup raises (KeyError
is a subclass of LookupError); `typeError` is raised when iterating a
non-iterable value. -/
inductive PyError where
  | assertionError
  | typeError (msg : String)
  | keyError (key : String)
  deriving DecidableEq, Repr

/-- Modelled from the spec: `get_pb_arg_vali` lives in
`detectron2/export/shared.py`, which is not under src/. Per the spec
(section 6), graph metadata is read via accessor helpers keyed by name
that return a typed default when the argument is absent. -/
def get_pb_arg_vali (net : NetDef) (arg_name : String) (default_val : Nat) : Nat :=
  match net.arg.find? (fun a => a.name == arg_name) with
  | some a =>
    match a.value with
    | PbArgValue.i n => n
    | PbArgValue.s _ => default_val
  | Option.none => default_val

/-- Modelled from the spec: `get_pb_arg_vals` (string-valued accessor)
lives in `detectron2/export/shared.py`, which is not under src/; same
contract as `get_pb_arg_vali` but for string arguments. -/
def get_pb_arg_vals (net : NetDef) (arg_name : String) (default_val : String) : String :=
  match net.arg.find? (fun a => a.name == arg_name) with
  | some a =>
    match a.value with
    | PbArgValue.s s => s
    | PbArgValue.i _ => default_val
  | Option.none => default_val

/-- The per-process map from workspace name to workspace contents
(caffe2 keeps workspaces in a process-global registry keyed by name). -/
abbrev Process := List (String × Workspace)

/-- The workspace registered in the process under the given name. -/
def getNamedWs : Process → String → Option Workspace
  | [], _ => Option.none
  | (x, w) :: rest, n => if x = n then some w else getNamedWs rest n

/-- Register the workspace under the given name in the process. -/
def setNamedWs (p : Process) (n : String) (w : Workspace) : Process :=
  (n, w) :: p

/-- Modelled from the spec: `ScopedWS` lives in
`detectron2/export/shared.py`, which is not under src/. Per the spec,
entering it switches to the process workspace of the given name (creating
it when missing) and, when reset is requested, clears it. -/
def scopedOpen (p : Process) (n : String) (is_reset : Bool) : Workspace :=
  if is_reset then [] else (getNamedWs p n).getD []

/-- Observable effects of the embedded code, in execution order. -/
inductive Event where
  | ranInitNet
  | createdNet (netName : String)
  | fedBlob (b : String)
  | ranNet (netName : String)
  | caughtRuntimeError (msg : String)
  | loggedNewError (msg : String)
  | fetchedOutputs
  | resetOutputBlob (b : String)
  | convertedInputs
  | appliedConverter
  deriving DecidableEq, Repr

/-- The external caffe2 engine executing the registered predict net:
from the fed workspace it produces the post-run workspace (possibly only
partially updated when it faults) and optionally the message of a
RuntimeError raised mid-execution. -/
abbrev Engine := Workspace → Workspace × Option String

/-- `ProtobufModel` (the spec's GraphRunner): workspace name, the wrapped
net definition, and the set of RuntimeError messages seen so far. -/
structure ProtobufModel where
  ws_name : String
  net : NetDef
  error_msgs : List String
  deriving Repr

/-- The `for blob in external_input: if blob not in ws.Blobs():
ws.CreateBlob(blob)` loop of `ProtobufModel.__init__`. -/
def createMissing (ws : Workspace) (blobNames : List String) : Workspace :=
  blobNames.foldl (fun w b => if b ∈ Blobs w then w else CreateBlob w b) ws

/-- What `ProtobufModel.__init__` produces: the constructed object, its
workspace, the updated process map, and the trace. -/
structure InitResult where
  model : ProtobufModel
  ws : Workspace
  proc : Process
  events : List Event
  deriving Repr

/-- `ProtobufModel.__init__` after the isinstance asserts: open the
workspace named `__ws_tmp__` with reset, run the init net once, create an
empty blob for every declared external input the init net did not
populate, and register the net (`ws.CreateNet`). `initEngine` is the
external engine executing `ws.RunNetOnce(init_net)`. -/
def ProtobufModel.initCore (initEngine : Workspace → Workspace)
    (pnet : NetDef) (proc : Process) : InitResult :=
  { model := { ws_name := "__ws_tmp__", net := pnet, error_msgs := [] },
    ws := createMissing (initEngine (scopedOpen proc "__ws_tmp__" true)) pnet.external_input,
    proc := setNamedWs proc "__ws_tmp__"
      (createMissing (initEngine (scopedOpen proc "__ws_tmp__" true)) pnet.external_input),
    events := [Event.ranInitNet, Event.createdNet pnet.name] }

/-- `ProtobufModel.__init__`: assert both arguments are `NetDef`s, then
`initCore`. The init net itself is opaque: its execution is the
`initEngine` parameter, so only the predict net shapes the result. -/
def ProtobufModel.init (initEngine : Workspace → Workspace)
    (predict_net init_net : PyObj) (proc : Process) : Except PyError InitResult :=
  match predict_net, init_net with
  | PyObj.netdef pnet, PyObj.netdef _ => Except.ok (ProtobufModel.initCore initEngine pnet proc)
  | _, _ => Except.error PyError.assertionError

/-- An input (or output) tensor dict at the runner boundary. -/
abbrev TensorDict := List (String × Tensor)

/-- A dynamically typed Python value flowing between the adapter and the
runner: the buggy `_convert_inputs` returns `None`, so the runner's
argument is not statically a dict. -/
inductive PyVal where
  | noneVal
  | dict (d : TensorDict)
  deriving DecidableEq, Repr

/-- The string fed into each output blob after fetching, from
`"\x7b\x7d, a C++ native class of type nullptr (uninitialized).".format(b)`. -/
def sentinelFor (b : String) : String :=
  b ++ ", a C++ native class of type nullptr (uninitialized)."

/-- The `for b, tensor in inputs_dict.items(): ws.FeedBlob(b, tensor)`
loop of `ProtobufModel.forward`. -/
def feedAll (ws : Workspace) (inputs : TensorDict) : Workspace :=
  inputs.foldl (fun w p => FeedBlob w p.fst (BlobValue.tensor p.snd)) ws

/-- The post-run cleanup loop of `ProtobufModel.forward`: feed each
declared external output blob the uninitialized sentinel string. -/
def resetOutputs (ws : Workspace) (outs : List String) : Workspace :=
  outs.foldl (fun w b => FeedBlob w b (BlobValue.strVal (sentinelFor b))) ws

/-- The update of `self._error_msgs` performed by the `except
RuntimeError` handler: insert the message if unseen. -/
def dedupInsert (msgs : List String) (fault : Option String) : List String :=
  match fault with
  | Option.none => msgs
  | some msg => if msg ∈ msgs then msgs else msg :: msgs

/-- The log events of the `except RuntimeError` handler: the error is
always caught, and additionally logged as new when its message is unseen. -/
def faultEvents (msgs : List String) (fault : Option String) : List Event :=
  match fault with
  | Option.none => []
  | some msg =>
    if msg ∈ msgs then [Event.caughtRuntimeError msg]
    else [Event.caughtRuntimeError msg, Event.loggedNewError msg]

/-- What `ProtobufModel.forward` produces: the returned outputs dict (or
the raised exception), the workspace after the call, the updated error
message set, and the trace. -/
structure ForwardOut where
  result : Except PyError (List (String × Option BlobValue))
  ws : Workspace
  error_msgs : List String
  events : List Event
  deriving Repr

/-- `ProtobufModel.forward` on a dict argument: assert every input key is
a declared external input (else AssertionError before anything is fed),
feed all inputs, run the net catching a RuntimeError mid-run, fetch every
declared external output in declared order, then reset each output blob
to its sentinel string. -/
def ProtobufModel.forwardDict (engine : Engine) (m : ProtobufModel)
    (ws : Workspace) (inputs_dict : TensorDict) : ForwardOut :=
  if ∀ p ∈ inputs_dict, p.fst ∈ m.net.external_input then
    { result := Except.ok (m.net.external_output.map
        (fun b => (b, FetchBlob (engine (feedAll ws inputs_dict)).fst b))),
      ws := resetOutputs (engine (feedAll ws inputs_dict)).fst m.net.external_output,
      error_msgs := dedupInsert m.error_msgs (engine (feedAll ws inputs_dict)).snd,
      events := inputs_dict.map (fun p => Event.fedBlob p.fst)
        ++ [Event.ranNet m.net.name]
        ++ faultEvents m.error_msgs (engine (feedAll ws inputs_dict)).snd
        ++ [Event.fetchedOutputs]
        ++ m.net.external_output.map Event.resetOutputBlob }
  else
    { result := Except.error PyError.assertionError, ws := ws,
      error_msgs := m.error_msgs, events := [] }

/-- `ProtobufModel.forward` as called (dynamically typed): iterating a
`None` argument in the assert raises a TypeError before anything else
happens. -/
def ProtobufModel.forwardPy (engine : Engine) (m : ProtobufModel)
    (ws : Workspace) (inputs : PyVal) : ForwardOut :=
  match inputs with
  | PyVal.dict d => ProtobufModel.forwardDict engine m ws d
  | PyVal.noneVal =>
    { result := Except.error (PyError.typeError "NoneType object is not iterable"),
      ws := ws, error_msgs := m.error_msgs, events := [] }

/-- One batched per-image input record: its image tensor's original
spatial size (other per-image metadata is opaque to the claims). -/
structure ImageInput where
  height : Nat
  width : Nat
  deriving DecidableEq, Repr

/-- Structured per-image detection results, the host-format output of an
output converter; their internal layout is owned by the converters in
`caffe2_modeling` and is opaque here. -/
abbrev DetResults := List (List (String × Tensor))

/-- An output converter, called as
`self._convert_outputs(batched_inputs, c2_inputs, c2_results)`; its
second argument is dynamically typed because the buggy `_convert_inputs`
returns `None`. -/
abbrev OutputConverter :=
  List ImageInput → PyVal → List (String × Option BlobValue) → DetResults

/-- Modelled from the spec: `META_ARCH_CAFFE2_EXPORT_TYPE_MAP` lives in
`detectron2/export/caffe2_modeling.py`, which is not under src/. Per the
spec it is a registry keyed by architecture-tag string; each entry's
`get_outputs_converter(predict_net, init_net)` yields the converter. -/
abbrev MetaArchRegistry := List (String × (NetDef → NetDef → OutputConverter))

/-- Round a spatial dimension up to the nearest multiple of the
size-divisibility value (0 means no padding). -/
def roundUpTo (d : Nat) (k : Nat) : Nat :=
  if k = 0 then d else ((d + k - 1) / k) * k

/-- The largest image height in the batch. -/
def maxHeight (batched_inputs : List ImageInput) : Nat :=
  (batched_inputs.map ImageInput.height).foldl max 0

/-- The largest image width in the batch. -/
def maxWidth (batched_inputs : List ImageInput) : Nat :=
  (batched_inputs.map ImageInput.width).foldl max 0

/-- Modelled from the spec: `convert_batched_inputs_to_c2_format` lives
in `detectron2/export/caffe2_modeling.py`, which is not under src/. Per
the spec it batches the per-image inputs into a single padded NCHW image
tensor whose spatial dimensions are rounded up to the nearest multiple of
the size-divisibility value (0 = no padding), plus a per-image metadata
tensor holding original height, width and scale. Element values are
outside the spec and not modelled. -/
def convert_batched_inputs_to_c2_format (batched_inputs : List ImageInput)
    (size_divisibility : Nat) : Tensor × Tensor :=
  ({ shape := [batched_inputs.length, 3,
      roundUpTo (maxHeight batched_inputs) size_divisibility,
      roundUpTo (maxWidth batched_inputs) size_divisibility] },
   { shape := [batched_inputs.length, 3] })

/-- `ProtobufDetectionModel` (the spec's DetectionAdapter): the wrapped
runner, the size-divisibility read from the predict net, and the resolved
output converter (`self._convert_outputs`). -/
structure ProtobufDetectionModel where
  protobuf_model : ProtobufModel
  size_divisibility : Nat
  convert_outputs_fn : OutputConverter

/-- `ProtobufDetectionModel.__init__`: construct the `ProtobufModel`
(asserting both nets), read `size_divisibility` (default 0), and resolve
the output converter: the explicit one when given, else the registry
entry for the `meta_architecture` tag (default `"GeneralizedRCNN"`) — a
missing entry raises KeyError (a LookupError) here, at construction. -/
def ProtobufDetectionModel.init (registry : MetaArchRegistry)
    (initEngine : Workspace → Workspace) (predict_net init_net : PyObj)
    (convert_outputs : Option OutputConverter) (proc : Process) :
    Except PyError (ProtobufDetectionModel × InitResult) :=
  match predict_net, init_net with
  | PyObj.netdef pnet, PyObj.netdef inet =>
    let ir := ProtobufModel.initCore initEngine pnet proc
    let sd := get_pb_arg_vali pnet "size_divisibility" 0
    match convert_outputs with
    | some f =>
      Except.ok ({ protobuf_model := ir.model, size_divisibility := sd,
                   convert_outputs_fn := f }, ir)
    | Option.none =>
      let meta_arch := get_pb_arg_vals pnet "meta_architecture" "GeneralizedRCNN"
      match registry.find? (fun p => p.fst == meta_arch) with
      | Option.none => Except.error (PyError.keyError meta_arch)
      | some entry =>
        Except.ok ({ protobuf_model := ir.model, size_divisibility := sd,
                     convert_outputs_fn := entry.snd pnet inet }, ir)
  | _, _ => Except.error PyError.assertionError

/-- What `_convert_inputs` produces: its Python return value (or raised
exception), plus the workspace, error-message set and trace after its
side effects. -/
structure ConvertOut where
  result : Except PyError PyVal
  ws : Workspace
  error_msgs : List String
  events : List Event

/-- `ProtobufDetectionModel._convert_inputs`, as written in the source:
it builds `c2_inputs = ("data", "im_info")` from
`convert_batched_inputs_to_c2_format`, then calls
`self.protobuf_model(c2_inputs)` itself, binds the result to an unused
local, and falls off the end — so it returns Python `None`. -/
def ProtobufDetectionModel._convert_inputs (engine : Engine)
    (m : ProtobufDetectionModel) (ws : Workspace)
    (batched_inputs : List ImageInput) : ConvertOut :=
  let pair := convert_batched_inputs_to_c2_format batched_inputs m.size_divisibility
  let c2_inputs : TensorDict := [("data", pair.fst), ("im_info", pair.snd)]
  let fo := ProtobufModel.forwardPy engine m.protobuf_model ws (PyVal.dict c2_inputs)
  match fo.result with
  | Except.error e =>
    { result := Except.error e, ws := fo.ws, error_msgs := fo.error_msgs,
      events := Event.convertedInputs :: fo.events }
  | Except.ok _ =>
    { result := Except.ok PyVal.noneVal, ws := fo.ws, error_msgs := fo.error_msgs,
      events := Event.convertedInputs :: fo.events }

/-- What `ProtobufDetectionModel.forward` produces. -/
structure DetForwardOut where
  result : Except PyError DetResults
  ws : Workspace
  error_msgs : List String
  events : List Event

/-- `ProtobufDetectionModel.forward`, as written in the source:
`c2_inputs = self._convert_inputs(batched_inputs)`, then
`c2_results = self.protobuf_model(c2_inputs)`, then
`return self._convert_outputs(batched_inputs, c2_inputs, c2_results)`.
Exceptions raised by either call propagate. -/
def ProtobufDetectionModel.forward (engine : Engine)
    (m : ProtobufDetectionModel) (ws : Workspace)
    (batched_inputs : List ImageInput) : DetForwardOut :=
  let ci := ProtobufDetectionModel._convert_inputs engine m ws batched_inputs
  match ci.result with
  | Except.error e =>
    { result := Except.error e, ws := ci.ws, error_msgs := ci.error_msgs,
      events := ci.events }
  | Except.ok c2_inputs =>
    let m1 := { m.protobuf_model with error_msgs := ci.error_msgs }
    let fo := ProtobufModel.forwardPy engine m1 ci.ws c2_inputs
    match fo.result with
    | Except.error e =>
      { result := Except.error e, ws := fo.ws, error_msgs := fo.error_msgs,
        events := ci.events ++ fo.events }
    | Except.ok c2_results =>
      { result := Except.ok (m.convert_outputs_fn batched_inputs c2_inputs c2_results),
        ws := fo.ws, error_msgs := fo.error_msgs,
        events := ci.events ++ fo.events ++ [Event.appliedConverter] }

/-! ### Concrete fixtures used by witnesses and counterexamples -/

/-- A concrete exported predict net with the conventional inputs and two
detection outputs. -/
def sampleNet : NetDef :=
  { name := "predict_net",
    external_input := ["data", "im_info"],
    external_output := ["bbox_nms", "score_nms"],
    arg := [{ name := "size_divisibility", value := PbArgValue.i 32 }] }

/-- A concrete runner over `sampleNet` with no errors seen yet. -/
def sampleModel : ProtobufModel :=
  { ws_name := "__ws_tmp__", net := sampleNet, error_msgs := [] }

/-- A concrete engine that succeeds, writing both output blobs. -/
def okEngine : Engine :=
  fun ws =>
    (FeedBlob (FeedBlob ws "bbox_nms" (BlobValue.tensor { shape := [10, 5] }))
      "score_nms" (BlobValue.tensor { shape := [10] }), Option.none)

/-- A concrete engine that faults with a RuntimeError before writing any
blob. -/
def failEngine : Engine :=
  fun ws => (ws, some "op error")

/-- A concrete valid input dict for `sampleNet`. -/
def sampleInputs : TensorDict :=
  [("data", { shape := [1, 3, 96, 128] }), ("im_info", { shape := [1, 3] })]

/-- A concrete init-net execution populating a weight blob and `data`. -/
def sampleInitEngine : Workspace → Workspace :=
  fun ws => FeedBlob (FeedBlob ws "weights" (BlobValue.tensor { shape := [4] }))
    "data" (BlobValue.tensor { shape := [0] })

/-- A concrete adapter over `sampleModel` with an explicit converter. -/
def sampleAdapter : ProtobufDetectionModel :=
  { protobuf_model := sampleModel, size_divisibility := 32,
    convert_outputs_fn := fun _ _ _ => [[("boxes", { shape := [10, 4] })]] }

/-! ### Workspace lemmas -/

theorem FetchBlob_FeedBlob_self (ws : Workspace) (b : String) (v : BlobValue) :
    FetchBlob (FeedBlob ws b v) b = some v := by
  simp [FeedBlob, FetchBlob]

theorem FetchBlob_FeedBlob_ne (ws : Workspace) (b x : String) (v : BlobValue)
    (h : x ≠ b) : FetchBlob (FeedBlob ws x v) b = FetchBlob ws b := by
  simp [FeedBlob, FetchBlob, h]

theorem FetchBlob_isSome_iff_mem_Blobs (ws : Workspace) (b : String) :
    (FetchBlob ws b).isSome = true ↔ b ∈ Blobs ws := by
  induction ws with
  | nil => simp [FetchBlob, Blobs]
  | cons p rest ih =>
    by_cases h : p.fst = b
    · simp [FetchBlob, Blobs, h]
    · simpa [FetchBlob, Blobs, h, Ne.symm h] using ih

theorem FetchBlob_resetOutputs_of_not_mem (outs : List String) (ws : Workspace)
    (b : String) (h : b ∉ outs) :
    FetchBlob (resetOutputs ws outs) b = FetchBlob ws b := by
  induction outs generalizing ws with
  | nil => rfl
  | cons x rest ih =>
    have hx : x ≠ b := fun hxb => h (hxb ▸ List.mem_cons_self x rest)
    have hrest : b ∉ rest := fun hr => h (List.mem_cons_of_mem x hr)
    calc FetchBlob (resetOutputs (FeedBlob ws x (BlobValue.strVal (sentinelFor x))) rest) b
        = FetchBlob (FeedBlob ws x (BlobValue.strVal (sentinelFor x))) b := ih _ hrest
      _ = FetchBlob ws b := FetchBlob_FeedBlob_ne ws b x _ hx

theorem FetchBlob_resetOutputs_of_mem (outs : List String) (ws : Workspace)
    (b : String) (h : b ∈ outs) :
    FetchBlob (resetOutputs ws outs) b = some (BlobValue.strVal (sentinelFor b)) := by
  induction outs generalizing ws with
  | nil => cases h
  | cons x rest ih =>
    by_cases hr : b ∈ rest
    · exact ih _ hr
    · have hb : x = b := by
        rcases List.mem_cons.mp h with hxb | hxb
        · exact hxb.symm
        · exact absurd hxb hr
      subst hb
      calc FetchBlob (resetOutputs (FeedBlob ws x (BlobValue.strVal (sentinelFor x))) rest) x
          = FetchBlob (FeedBlob ws x (BlobValue.strVal (sentinelFor x))) x :=
            FetchBlob_resetOutputs_of_not_mem rest _ x hr
        _ = some (BlobValue.strVal (sentinelFor x)) := FetchBlob_FeedBlob_self ws x _

theorem FetchBlob_feedAll_of_not_key (inputs : TensorDict) (ws : Workspace)
    (b : String) (h : b ∉ inputs.map Prod.fst) :
    FetchBlob (feedAll ws inputs) b = FetchBlob ws b := by
  induction inputs generalizing ws with
  | nil => rfl
  | cons p rest ih =>
    have hx : p.fst ≠ b := by
      intro hpb
      exact h (by simp [hpb])
    have hrest : b ∉ rest.map Prod.fst := by
      intro hr
      exact h (by simp [hr])
    calc FetchBlob (feedAll (FeedBlob ws p.fst (BlobValue.tensor p.snd)) rest) b
        = FetchBlob (FeedBlob ws p.fst (BlobValue.tensor p.snd)) b := ih _ hrest
      _ = FetchBlob ws b := FetchBlob_FeedBlob_ne ws b p.fst _ hx

theorem createMissing_nil (ws : Workspace) : createMissing ws [] = ws := rfl

theorem createMissing_cons (ws : Workspace) (x : String) (rest : List String) :
    createMissing ws (x :: rest)
      = createMissing (if x ∈ Blobs ws then ws else CreateBlob ws x) rest := rfl

theorem mem_Blobs_FeedBlob (ws : Workspace) (b x : String) (v : BlobValue) :
    b ∈ Blobs (FeedBlob ws x v) ↔ b = x ∨ b ∈ Blobs ws := by
  simp [FeedBlob, Blobs, eq_comm]

theorem mem_Blobs_createMissing_mono (l : List String) (ws : Workspace)
    (b : String) (h : b ∈ Blobs ws) : b ∈ Blobs (createMissing ws l) := by
  induction l generalizing ws with
  | nil => exact h
  | cons x rest ih =>
    rw [createMissing_cons]
    by_cases hx : x ∈ Blobs ws
    · simpa [hx] using ih ws h
    · simp only [hx, if_false]
      exact ih _ ((mem_Blobs_FeedBlob ws b x BlobValue.uninit).mpr (Or.inr h))

theorem mem_Blobs_createMissing_of_mem (l : List String) (ws : Workspace)
    (b : String) (h : b ∈ l) : b ∈ Blobs (createMissing ws l) := by
  induction l generalizing ws with
  | nil => cases h
  | cons x rest ih =>
    rw [createMissing_cons]
    by_cases hr : b ∈ rest
    · exact ih _ hr
    · have hb : b = x := by
        rcases List.mem_cons.mp h with hxb | hxb
        · exact hxb
        · exact absurd hxb hr
      subst hb
      by_cases hx : b ∈ Blobs ws
      · simpa [hx] using mem_Blobs_createMissing_mono rest ws b hx
      · simp only [hx, if_false]
        exact mem_Blobs_createMissing_mono rest _ b
          ((mem_Blobs_FeedBlob ws b b BlobValue.uninit).mpr (Or.inl rfl))

theorem FetchBlob_createMissing_of_mem_Blobs (l : List String) (ws : Workspace)
    (b : String) (h : b ∈ Blobs ws) :
    FetchBlob (createMissing ws l) b = FetchBlob ws b := by
  induction l generalizing ws with
  | nil => rfl
  | cons x rest ih =>
    rw [createMissing_cons]
    by_cases hx : x ∈ Blobs ws
    · simpa [hx] using ih ws h
    · have hxb : x ≠ b := fun he => hx (he ▸ h)
      simp only [hx, if_false]
      calc FetchBlob (createMissing (CreateBlob ws x) rest) b
          = FetchBlob (CreateBlob ws x) b :=
            ih _ ((mem_Blobs_FeedBlob ws b x BlobValue.uninit).mpr (Or.inr h))
        _ = FetchBlob ws b := FetchBlob_FeedBlob_ne ws b x _ hxb

theorem FetchBlob_createMissing_uninit (l : List String) (ws : Workspace)
    (b : String) (hl : b ∈ l) (h : b ∉ Blobs ws) :
    FetchBlob (createMissing ws l) b = some BlobValue.uninit := by
  induction l generalizing ws with
  | nil => cases hl
  | cons x rest ih =>
    rw [createMissing_cons]
    by_cases hx : x ∈ Blobs ws
    · have hxb : x ≠ b := fun he => h (he ▸ hx)
      have hr : b ∈ rest := by
        rcases List.mem_cons.mp hl with hxb2 | hxb2
        · exact absurd hxb2.symm hxb
        · exact hxb2
      simpa [hx] using ih ws hr h
    · simp only [hx, if_false]
      by_cases hxb : x = b
      · subst hxb
        calc FetchBlob (createMissing (CreateBlob ws x) rest) x
            = FetchBlob (CreateBlob ws x) x :=
              FetchBlob_createMissing_of_mem_Blobs rest _ x
                ((mem_Blobs_FeedBlob ws x x BlobValue.uninit).mpr (Or.inl rfl))
          _ = some BlobValue.uninit := FetchBlob_FeedBlob_self ws x _
      · have hr : b ∈ rest := by
          rcases List.mem_cons.mp hl with hxb2 | hxb2
          · exact absurd hxb2 (fun he => hxb he.symm)
          · exact hxb2
        have hnb : b ∉ Blobs (CreateBlob ws x) := by
          intro hmem
          rcases (mem_Blobs_FeedBlob ws b x BlobValue.uninit).mp hmem with he | hmem2
          · exact hxb he.symm
          · exact h hmem2
        exact ih _ hr hnb

/-! ### Unfolding helpers for `ProtobufModel.forwardDict` -/

theorem forwardDict_result_of_valid (engine : Engine) (m : ProtobufModel)
    (ws : Workspace) (inputs_dict : TensorDict)
    (h : ∀ p ∈ inputs_dict, p.fst ∈ m.net.external_input) :
    (ProtobufModel.forwardDict engine m ws inputs_dict).result
      = Except.ok (m.net.external_output.map
          (fun b => (b, FetchBlob (engine (feedAll ws inputs_dict)).fst b))) := by
  unfold ProtobufModel.forwardDict
  rw [if_pos h]

theorem forwardDict_ws_of_valid (engine : Engine) (m : ProtobufModel)
    (ws : Workspace) (inputs_dict : TensorDict)
    (h : ∀ p ∈ inputs_dict, p.fst ∈ m.net.external_input) :
    (ProtobufModel.forwardDict engine m ws inputs_dict).ws
      = resetOutputs (engine (feedAll ws inputs_dict)).fst m.net.external_output := by
  unfold ProtobufModel.forwardDict
  rw [if_pos h]

theorem forwardDict_error_msgs_of_valid (engine : Engine) (m : ProtobufModel)
    (ws : Workspace) (inputs_dict : TensorDict)
    (h : ∀ p ∈ inputs_dict, p.fst ∈ m.net.external_input) :
    (ProtobufModel.forwardDict engine m ws inputs_dict).error_msgs
      = dedupInsert m.error_msgs (engine (feedAll ws inputs_dict)).snd := by
  unfold ProtobufModel.forwardDict
  rw [if_pos h]

theorem forwardDict_events_of_valid (engine : Engine) (m : ProtobufModel)
    (ws : Workspace) (inputs_dict : TensorDict)
    (h : ∀ p ∈ inputs_dict, p.fst ∈ m.net.external_input) :
    (ProtobufModel.forwardDict engine m ws inputs_dict).events
      = inputs_dict.map (fun p => Event.fedBlob p.fst)
        ++ [Event.ranNet m.net.name]
        ++ faultEvents m.error_msgs (engine (feedAll ws inputs_dict)).snd
        ++ [Event.fetchedOutputs]
        ++ m.net.external_output.map Event.resetOutputBlob := by
  unfold ProtobufModel.forwardDict
  rw [if_pos h]

/-! ### Claim theorems -/

/-- C3: for every input TensorDict whose keys are all declared external
inputs of the graph, `GraphRunner.run` (`ProtobufModel.forward`) returns
a TensorDict whose key list equals exactly the graph's declared external
outputs, in their declared order. -/
theorem run_returns_declared_outputs_in_order (engine : Engine)
    (m : ProtobufModel) (ws : Workspace) (inputs_dict : TensorDict)
    (h : ∀ p ∈ inputs_dict, p.fst ∈ m.net.external_input) :
    ∃ outs, (ProtobufModel.forwardDict engine m ws inputs_dict).result = Except.ok outs
      ∧ outs.map Prod.fst = m.net.external_output := by
  refine ⟨m.net.external_output.map
      (fun b => (b, FetchBlob (engine (feedAll ws inputs_dict)).fst b)), ?_, ?_⟩
  · exact forwardDict_result_of_valid engine m ws inputs_dict h
  · simp [Function.comp_def]

/-- Witness for C3 at a concrete runner, engine and input dict. -/
theorem run_returns_declared_outputs_in_order_witness :
    ∃ outs, (ProtobufModel.forwardDict okEngine sampleModel [] sampleInputs).result
        = Except.ok outs
      ∧ outs.map Prod.fst = sampleModel.net.external_output :=
  run_returns_declared_outputs_in_order okEngine sampleModel [] sampleInputs (by decide)

/-- C4: after a valid run, every declared external-output blob in the
workspace holds the explicit uninitialized sentinel string; consequently
a subsequent run whose engine faults before writing output blob `b` (and
whose fresh inputs do not feed `b`) returns the sentinel for `b`, never
an output value left over from the prior successful run. -/
theorem outputs_reset_between_runs (engine1 engine2 : Engine)
    (m : ProtobufModel) (ws : Workspace) (inputs1 inputs2 : TensorDict) (b : String)
    (h1 : ∀ p ∈ inputs1, p.fst ∈ m.net.external_input)
    (h2 : ∀ p ∈ inputs2, p.fst ∈ m.net.external_input)
    (hb : b ∈ m.net.external_output)
    (hfresh : b ∉ inputs2.map Prod.fst)
    (hfault : ∀ w, FetchBlob (engine2 w).fst b = FetchBlob w b) :
    FetchBlob (ProtobufModel.forwardDict engine1 m ws inputs1).ws b
        = some (BlobValue.strVal (sentinelFor b))
    ∧ ∃ outs2,
        (ProtobufModel.forwardDict engine2
            { m with error_msgs := (ProtobufModel.forwardDict engine1 m ws inputs1).error_msgs }
            (ProtobufModel.forwardDict engine1 m ws inputs1).ws inputs2).result
          = Except.ok outs2
        ∧ (b, some (BlobValue.strVal (sentinelFor b))) ∈ outs2 := by
  have hreset : FetchBlob (ProtobufModel.forwardDict engine1 m ws inputs1).ws b
      = some (BlobValue.strVal (sentinelFor b)) := by
    rw [forwardDict_ws_of_valid engine1 m ws inputs1 h1]
    exact FetchBlob_resetOutputs_of_mem _ _ b hb
  refine ⟨hreset, ?_⟩
  set ws1 := (ProtobufModel.forwardDict engine1 m ws inputs1).ws with hws1
  refine ⟨m.net.external_output.map
      (fun c => (c, FetchBlob (engine2 (feedAll ws1 inputs2)).fst c)), ?_, ?_⟩
  · exact forwardDict_result_of_valid engine2 _ ws1 inputs2 h2
  · have hv : FetchBlob (engine2 (feedAll ws1 inputs2)).fst b
        = some (BlobValue.strVal (sentinelFor b)) := by
      rw [hfault, FetchBlob_feedAll_of_not_key inputs2 ws1 b hfresh, hws1]
      exact hreset
    have hm : (b, FetchBlob (engine2 (feedAll ws1 inputs2)).fst b)
        ∈ m.net.external_output.map
            (fun c => (c, FetchBlob (engine2 (feedAll ws1 inputs2)).fst c)) :=
      List.mem_map_of_mem _ hb
    rwa [hv] at hm

/-- Witness for C4: a successful run with `okEngine`, then a faulting run
with `failEngine`, on the concrete sample runner. -/
theorem outputs_reset_between_runs_witness :
    FetchBlob (ProtobufModel.forwardDict okEngine sampleModel [] sampleInputs).ws "bbox_nms"
        = some (BlobValue.strVal (sentinelFor "bbox_nms"))
    ∧ ∃ outs2,
        (ProtobufModel.forwardDict failEngine
            { sampleModel with
                error_msgs := (ProtobufModel.forwardDict okEngine sampleModel [] sampleInputs).error_msgs }
            (ProtobufModel.forwardDict okEngine sampleModel [] sampleInputs).ws sampleInputs).result
          = Except.ok outs2
        ∧ ("bbox_nms", some (BlobValue.strVal (sentinelFor "bbox_nms"))) ∈ outs2 :=
  outputs_reset_between_runs okEngine failEngine sampleModel [] sampleInputs sampleInputs
    "bbox_nms" (by decide) (by decide) (by decide) (by decide) (fun _ => rfl)

/-- C5: a RuntimeError raised by the engine mid-run is not propagated:
the run still returns the fetched (partial) outputs, the message is
inserted into the per-runner deduplicating set, and a new-error log entry
appears exactly when the message was unseen. -/
theorem runtime_fault_recovered_and_deduplicated (engine : Engine)
    (m : ProtobufModel) (ws : Workspace) (inputs_dict : TensorDict)
    (msg : String) (wsAfter : Workspace)
    (h : ∀ p ∈ inputs_dict, p.fst ∈ m.net.external_input)
    (hfault : engine (feedAll ws inputs_dict) = (wsAfter, some msg)) :
    (ProtobufModel.forwardDict engine m ws inputs_dict).result
        = Except.ok (m.net.external_output.map (fun b => (b, FetchBlob wsAfter b)))
    ∧ (ProtobufModel.forwardDict engine m ws inputs_dict).error_msgs
        = (if msg ∈ m.error_msgs then m.error_msgs else msg :: m.error_msgs)
    ∧ (Event.loggedNewError msg ∈ (ProtobufModel.forwardDict engine m ws inputs_dict).events
        ↔ msg ∉ m.error_msgs) := by
  refine ⟨?_, ?_, ?_⟩
  · rw [forwardDict_result_of_valid engine m ws inputs_dict h, hfault]
  · rw [forwardDict_error_msgs_of_valid engine m ws inputs_dict h, hfault]
    rfl
  · rw [forwardDict_events_of_valid engine m ws inputs_dict h, hfault]
    by_cases hm : msg ∈ m.error_msgs
    · simp [faultEvents, hm]
    · simp [faultEvents, hm]

/-- Witness for C5 at the concrete faulting engine. -/
theorem runtime_fault_recovered_and_deduplicated_witness :
    (ProtobufModel.forwardDict failEngine sampleModel [] sampleInputs).result
        = Except.ok (sampleModel.net.external_output.map
            (fun b => (b, FetchBlob (feedAll [] sampleInputs) b)))
    ∧ (ProtobufModel.forwardDict failEngine sampleModel [] sampleInputs).error_msgs
        = (if "op error" ∈ sampleModel.error_msgs then sampleModel.error_msgs
            else "op error" :: sampleModel.error_msgs)
    ∧ (Event.loggedNewError "op error"
          ∈ (ProtobufModel.forwardDict failEngine sampleModel [] sampleInputs).events
        ↔ "op error" ∉ sampleModel.error_msgs) :=
  runtime_fault_recovered_and_deduplicated failEngine sampleModel [] sampleInputs
    "op error" (feedAll [] sampleInputs) (by decide) rfl

/-- C6: an input dict containing a key that is not a declared external
input fails fast with the failed assert (the spec's InvalidInput): the
raised error is synchronous, the workspace is untouched, and the trace is
empty — no blob was fed and the engine never ran. -/
theorem invalid_input_fails_fast (engine : Engine) (m : ProtobufModel)
    (ws : Workspace) (inputs_dict : TensorDict)
    (h : ∃ p ∈ inputs_dict, p.fst ∉ m.net.external_input) :
    (ProtobufModel.forwardDict engine m ws inputs_dict).result
        = Except.error PyError.assertionError
    ∧ (ProtobufModel.forwardDict engine m ws inputs_dict).ws = ws
    ∧ (ProtobufModel.forwardDict engine m ws inputs_dict).events = [] := by
  have hn : ¬ ∀ p ∈ inputs_dict, p.fst ∈ m.net.external_input := by
    rcases h with ⟨p, hp, hnp⟩
    intro hall
    exact hnp (hall p hp)
  unfold ProtobufModel.forwardDict
  rw [if_neg hn]
  exact ⟨rfl, rfl, rfl⟩

/-- An input dict with the undeclared key `rois`. -/
def badInputs : TensorDict :=
  [("data", { shape := [1, 3, 32, 32] }), ("rois", { shape := [4, 5] })]

/-- Witness for C6 at a concrete undeclared input key. -/
theorem invalid_input_fails_fast_witness :
    (ProtobufModel.forwardDict okEngine sampleModel [] badInputs).result
        = Except.error PyError.assertionError
    ∧ (ProtobufModel.forwardDict okEngine sampleModel [] badInputs).ws = []
    ∧ (ProtobufModel.forwardDict okEngine sampleModel [] badInputs).events = [] :=
  invalid_input_fails_fast okEngine sampleModel [] badInputs (by decide)

theorem find?_eq_none_of_not_mem_keys {α : Type} (l : List (String × α)) (a : String)
    (h : a ∉ l.map Prod.fst) : l.find? (fun p => p.fst == a) = Option.none := by
  induction l with
  | nil => rfl
  | cons p rest ih =>
    have hp : p.fst ≠ a := fun he => h (by simp [he])
    have hr : a ∉ rest.map Prod.fst := fun hm => h (by simp [hm])
    simp [List.find?_cons, hp, ih hr]

/-- C7: constructing `ProtobufDetectionModel` without an explicit
converter, when the predict net's `meta_architecture` tag has no entry in
the registry, fails at construction with KeyError (a LookupError): `init`
returns the error and no adapter is ever produced, so the failure cannot
be deferred to a first inference call. -/
theorem unregistered_meta_arch_fails_at_construction (registry : MetaArchRegistry)
    (initEngine : Workspace → Workspace) (pnet inet : NetDef) (proc : Process)
    (h : get_pb_arg_vals pnet "meta_architecture" "GeneralizedRCNN" ∉ registry.map Prod.fst) :
    ProtobufDetectionModel.init registry initEngine (PyObj.netdef pnet)
        (PyObj.netdef inet) Option.none proc
      = Except.error
          (PyError.keyError (get_pb_arg_vals pnet "meta_architecture" "GeneralizedRCNN")) := by
  have hf := find?_eq_none_of_not_mem_keys registry _ h
  simp [ProtobufDetectionModel.init, hf]

/-- A registry knowing only the default architecture. -/
def sampleRegistry : MetaArchRegistry :=
  [("GeneralizedRCNN", fun _ _ => fun _ _ _ => [])]

/-- A predict net tagged with an architecture the registry does not know. -/
def customNet : NetDef :=
  { name := "predict_net",
    external_input := ["data", "im_info"],
    external_output := ["out"],
    arg := [{ name := "meta_architecture", value := PbArgValue.s "MyCustomArch" }] }

/-- Witness for C7 at a concrete unregistered tag. -/
theorem unregistered_meta_arch_fails_at_construction_witness :
    ProtobufDetectionModel.init sampleRegistry sampleInitEngine (PyObj.netdef customNet)
        (PyObj.netdef customNet) Option.none []
      = Except.error
          (PyError.keyError (get_pb_arg_vals customNet "meta_architecture" "GeneralizedRCNN")) :=
  unregistered_meta_arch_fails_at_construction sampleRegistry sampleInitEngine
    customNet customNet [] (by decide)

/-- C8: input padding rounds each spatial dimension of the batched image
tensor up to the nearest multiple of the size-divisibility value: one
70×100 image with divisibility 32 is padded to 96×128, and divisibility 0
leaves the batch at the unpadded maxima of the original dimensions. -/
theorem size_divisibility_padding (batched_inputs : List ImageInput) :
    (convert_batched_inputs_to_c2_format [{ height := 70, width := 100 }] 32).fst.shape
        = [1, 3, 96, 128]
    ∧ (convert_batched_inputs_to_c2_format batched_inputs 0).fst.shape
        = [batched_inputs.length, 3, maxHeight batched_inputs, maxWidth batched_inputs] := by
  constructor
  · rfl
  · simp [convert_batched_inputs_to_c2_format, roundUpTo]

/-- C9: `ProtobufModel` construction asserts both arguments are graph
definitions (AssertionError otherwise), runs the init net exactly once,
ensures every declared external input of the predict net has at least an
empty placeholder blob — keeping the init net's value when it populated
the blob and creating an uninitialized one only otherwise — and
registers the compiled net. -/
theorem construction_validates_inits_and_registers
    (initEngine : Workspace → Workspace) (pnet inet : NetDef) (proc : Process)
    (descr : String) (q : PyObj) (b : String)
    (hb : b ∈ pnet.external_input) :
    ProtobufModel.init initEngine (PyObj.other descr) q proc
        = Except.error PyError.assertionError
    ∧ ProtobufModel.init initEngine (PyObj.netdef pnet) (PyObj.other descr) proc
        = Except.error PyError.assertionError
    ∧ ∃ r, ProtobufModel.init initEngine (PyObj.netdef pnet) (PyObj.netdef inet) proc
          = Except.ok r
        ∧ r.events.count Event.ranInitNet = 1
        ∧ r.events.count (Event.createdNet pnet.name) = 1
        ∧ r.model.net = pnet
        ∧ (FetchBlob r.ws b).isSome = true
        ∧ FetchBlob r.ws b
            = (if b ∈ Blobs (initEngine []) then FetchBlob (initEngine []) b
                else some BlobValue.uninit) := by
  refine ⟨rfl, by cases q <;> rfl, ?_⟩
  refine ⟨ProtobufModel.initCore initEngine pnet proc, rfl, ?_, ?_, rfl, ?_, ?_⟩
  · simp [ProtobufModel.initCore]
  · simp [ProtobufModel.initCore]
  · rw [(FetchBlob_isSome_iff_mem_Blobs _ b)]
    exact mem_Blobs_createMissing_of_mem pnet.external_input _ b hb
  · by_cases hmem : b ∈ Blobs (initEngine [])
    · rw [if_pos hmem]
      exact FetchBlob_createMissing_of_mem_Blobs pnet.external_input _ b hmem
    · rw [if_neg hmem]
      exact FetchBlob_createMissing_uninit pnet.external_input _ b hb hmem

/-- Witness for C9 at a concrete init engine populating `data` but not
`im_info`. -/
theorem construction_validates_inits_and_registers_witness :
    ProtobufModel.init sampleInitEngine (PyObj.other "not a netdef") (PyObj.other "x") []
        = Except.error PyError.assertionError
    ∧ ProtobufModel.init sampleInitEngine (PyObj.netdef sampleNet) (PyObj.other "not a netdef") []
        = Except.error PyError.assertionError
    ∧ ∃ r, ProtobufModel.init sampleInitEngine (PyObj.netdef sampleNet) (PyObj.netdef sampleNet) []
          = Except.ok r
        ∧ r.events.count Event.ranInitNet = 1
        ∧ r.events.count (Event.createdNet sampleNet.name) = 1
        ∧ r.model.net = sampleNet
        ∧ (FetchBlob r.ws "im_info").isSome = true
        ∧ FetchBlob r.ws "im_info"
            = (if "im_info" ∈ Blobs (sampleInitEngine []) then FetchBlob (sampleInitEngine []) "im_info"
                else some BlobValue.uninit) :=
  construction_validates_inits_and_registers sampleInitEngine sampleNet sampleNet []
    "not a netdef" (PyObj.other "x") "im_info" (by decide)

/-- C10: every `ProtobufModel` is built over the same literal workspace
name `__ws_tmp__`, and construction opens that workspace with reset: a
second construction registers its workspace under the first one's name in
the process map, and its contents are exactly those of a construction in
an empty process — the first runner's workspace is reused and reset, not
isolated. -/
theorem shared_workspace_name_and_reset (e1 e2 : Workspace → Workspace)
    (p1 i1 p2 i2 : NetDef) (proc0 : Process) :
    ∃ r1 r2 r0,
      ProtobufModel.init e1 (PyObj.netdef p1) (PyObj.netdef i1) proc0 = Except.ok r1
      ∧ ProtobufModel.init e2 (PyObj.netdef p2) (PyObj.netdef i2) r1.proc = Except.ok r2
      ∧ ProtobufModel.init e2 (PyObj.netdef p2) (PyObj.netdef i2) [] = Except.ok r0
      ∧ r1.model.ws_name = "__ws_tmp__"
      ∧ r2.model.ws_name = "__ws_tmp__"
      ∧ getNamedWs r1.proc "__ws_tmp__" = some r1.ws
      ∧ getNamedWs r2.proc "__ws_tmp__" = some r2.ws
      ∧ r2.ws = r0.ws := by
  refine ⟨ProtobufModel.initCore e1 p1 proc0,
    ProtobufModel.initCore e2 p2 (ProtobufModel.initCore e1 p1 proc0).proc,
    ProtobufModel.initCore e2 p2 [], rfl, rfl, rfl, rfl, rfl, ?_, ?_, rfl⟩
  · simp [ProtobufModel.initCore, setNamedWs, getNamedWs]
  · simp [ProtobufModel.initCore, setNamedWs, getNamedWs]

/-- C1 (the code at a failing input): on a single 70×100 image, the graph
is executed once already inside `_convert_inputs`, and
`ProtobufDetectionModel.forward` then passes the `None` returned by
`_convert_inputs` to the runner, raising TypeError; the output converter
is never applied and no structured results are returned. -/
theorem forward_raises_type_error_and_never_converts :
    (ProtobufDetectionModel.forward okEngine sampleAdapter []
        [{ height := 70, width := 100 }]).result
        = Except.error (PyError.typeError "NoneType object is not iterable")
    ∧ (ProtobufDetectionModel.forward okEngine sampleAdapter []
        [{ height := 70, width := 100 }]).events.count (Event.ranNet "predict_net") = 1
    ∧ Event.appliedConverter ∉ (ProtobufDetectionModel.forward okEngine sampleAdapter []
        [{ height := 70, width := 100 }]).events :=
  ⟨rfl, by decide, by decide⟩

/-- C2 (the code at a failing input): `_convert_inputs` returns Python
`None`, not a TensorDict with keys `data` and `im_info`, and its trace
contains a graph execution. -/
theorem convert_inputs_returns_none_and_runs_graph :
    (ProtobufDetectionModel._convert_inputs okEngine sampleAdapter []
        [{ height := 70, width := 100 }]).result = Except.ok PyVal.noneVal
    ∧ Event.ranNet "predict_net" ∈ (ProtobufDetectionModel._convert_inputs okEngine
        sampleAdapter [] [{ height := 70, width := 100 }]).events :=
  ⟨rfl, by decide⟩

end Caffe2Inference
